import Mathlib

/-!
Verification development for the Bitcoin chain adapter (`BitcoinBaseChain`)
of the ren-js cross-chain transfer client.

The adapter is embedded shallowly: each method of the TypeScript class
becomes a pure Lean function; promise-returning methods that can throw
become `Except ChainError` computations; the asynchronous provider API is
passed in explicitly as data (the responses the providers would give),
so that the adapter's control flow over those responses is modelled
exactly as written in the source.
-/

/-- Errors thrown by the adapter, one constructor per `throw new Error(...)`
site in the source (plus provider-level failures surfaced through the API). -/
inductive ChainError where
  | unsupportedAsset (asset chain : String)
  | invalidAddress (addr : String)
  | invalidPayloadChain (payloadChain chain : String)
  | unknownNetwork (sel : String)
  | invalidNetworkConfig
  | providerFailure (msg : String)
  | notFound
deriving Repr, DecidableEq, BEq

/-! ## Byte-string helpers (`fromHex`, `toURLBase64`, `fromBase64`, base58)

These mirror the `@renproject/utils` and `bs58` helpers used by the adapter.
Bytes are `Nat`s below 256. -/

/-- Numeric value of a hexadecimal digit character. -/
def hexVal (c : Char) : Nat :=
  if c.isDigit then c.toNat - 48
  else if 'a' ≤ c && c ≤ 'f' then c.toNat - 87
  else if 'A' ≤ c && c ≤ 'F' then c.toNat - 55
  else 0

/-- Decode a list of hex characters, two characters per byte. -/
def fromHexChars : List Char → List Nat
  | c1 :: c2 :: rest => (hexVal c1 * 16 + hexVal c2) :: fromHexChars rest
  | _ => []

/-- Decode a hex string into bytes (`fromHex` from `@renproject/utils`). -/
def fromHex (s : String) : List Nat := fromHexChars s.data

/-- Lower-case hex digit for a value below 16. -/
def hexDigitChar (n : Nat) : Char :=
  if n < 10 then Char.ofNat (48 + n) else Char.ofNat (87 + n)

/-- Hex encoding of a byte list (`Buffer.toString("hex")`). -/
def hexOfBytes (bs : List Nat) : String :=
  String.mk ((bs.map fun b => [hexDigitChar (b / 16 % 16), hexDigitChar (b % 16)]).flatten)

/-- Character of a 6-bit group in the URL-safe base64 alphabet. -/
def b64Char (n : Nat) : Char :=
  if n < 26 then Char.ofNat (65 + n)
  else if n < 52 then Char.ofNat (97 + (n - 26))
  else if n < 62 then Char.ofNat (48 + (n - 52))
  else if n = 62 then '-' else '_'

/-- Split bytes into 6-bit groups, base64 style (no padding groups). -/
def b64Groups : List Nat → List Nat
  | b1 :: b2 :: b3 :: rest =>
    (b1 / 4) :: ((b1 % 4) * 16 + b2 / 16) :: ((b2 % 16) * 4 + b3 / 64) :: (b3 % 64)
      :: b64Groups rest
  | [b1, b2] => [b1 / 4, (b1 % 4) * 16 + b2 / 16, (b2 % 16) * 4]
  | [b1] => [b1 / 4, (b1 % 4) * 16]
  | [] => []

/-- URL-safe, unpadded base64 of a byte list (`toURLBase64` from
`@renproject/utils`). -/
def toURLBase64 (bs : List Nat) : String :=
  String.mk ((b64Groups bs).map b64Char)

/-- Value of a base64 character (both standard and URL-safe alphabets);
64 marks padding / invalid. -/
def b64Val (c : Char) : Nat :=
  if 'A' ≤ c && c ≤ 'Z' then c.toNat - 65
  else if 'a' ≤ c && c ≤ 'z' then c.toNat - 71
  else if '0' ≤ c && c ≤ '9' then c.toNat + 4
  else if c = '+' || c = '-' then 62
  else if c = '/' || c = '_' then 63
  else 64

/-- Reassemble bytes from base64 6-bit values, stopping at padding. -/
def b64Decode : List Nat → List Nat
  | v1 :: v2 :: v3 :: v4 :: rest =>
    if v3 ≥ 64 then [v1 * 4 + v2 / 16]
    else if v4 ≥ 64 then [v1 * 4 + v2 / 16, (v2 % 16) * 16 + v3 / 4]
    else (v1 * 4 + v2 / 16) :: ((v2 % 16) * 16 + v3 / 4) :: ((v3 % 4) * 64 + v4)
      :: b64Decode rest
  | [v1, v2, v3] => [v1 * 4 + v2 / 16, (v2 % 16) * 16 + v3 / 4]
  | [v1, v2] => [v1 * 4 + v2 / 16]
  | _ => []

/-- Decode a base64 string into bytes (`fromBase64` from `@renproject/utils`). -/
def fromBase64 (s : String) : List Nat := b64Decode (s.data.map b64Val)

/-- The base58 alphabet used by `bs58`. -/
def b58Alphabet : List Char :=
  "123456789ABCDEFGHJKLMNPQRSTUVWXYZabcdefghijkmnopqrstuvwxyz".data

/-- Big-endian base58 digits of a natural number. -/
def b58Digits (n : Nat) : List Nat :=
  if h : n = 0 then [] else b58Digits (n / 58) ++ [n % 58]
decreasing_by exact Nat.div_lt_self (Nat.pos_of_ne_zero h) (by decide)

/-- Interpret a byte list as a big-endian natural number. -/
def bytesToNat (bs : List Nat) : Nat := bs.foldl (fun acc b => acc * 256 + b) 0

/-- Count of leading zero bytes (each contributes a leading `1` in base58). -/
def countLeadZeros : List Nat → Nat
  | 0 :: rest => countLeadZeros rest + 1
  | _ => 0

/-- Base58 encoding of a byte list (`bs58.encode`, the adapter's
`encodeAddress`). -/
def base58Encode (bs : List Nat) : String :=
  String.mk (List.replicate (countLeadZeros bs) '1'
    ++ (b58Digits (bytesToNat bs)).map (fun d => b58Alphabet.getD d '1'))

/-! ## Hashing and gateway-script construction

`hash160` (RIPEMD160 ∘ SHA256) and the gateway script builder
`createAddressBuffer` live outside the sampled sources
(`@renproject/utils` and `./script/index`), so they are modelled from the
spec; only their determinism and output shape matter for the claims. -/

/-- Modelled from the spec: stands in for the ledger-standard 160-bit digest
(`hash160` = RIPEMD160 ∘ SHA256 in the real library, which is not part of
this repository's sampled sources). A pure, deterministic 20-byte digest. -/
def hash160 (bs : List Nat) : List Nat :=
  (List.range 20).map fun i =>
    bs.foldl (fun acc b => (acc * 131 + b) % 256) ((i * 37 + 11) % 256)

/-- Modelled from the spec: four-byte checksum appended to the address
payload (double-SHA256 in the real chain encoding). -/
def checksum4 (bs : List Nat) : List Nat := (hash160 bs).take 4

/-- Modelled from the spec: `createAddressBuffer` from `./script/index`
(not among the sampled sources) builds the gateway locking script from the
transfer hash `gHash` and the 160-bit digest of the shard public key,
hashes the script, and prepends the network's pay-to-script-hash version
bytes, appending a checksum. -/
def createAddressBuffer (pubKeyHash gHash p2shPfx : List Nat) : List Nat :=
  let script := gHash ++ [0x75] ++ [0x76, 0xa9, 0x14] ++ pubKeyHash ++ [0x88, 0xac]
  let payload := p2shPfx ++ hash160 script
  payload ++ checksum4 payload

/-! ## Address validation utility

`validateAddress(address, asset, networkType)` from `./utils/utils` is not
among the sampled sources; it is modelled from the spec: it accepts exactly
the address formats of the given network variant (`"prod"` or
`"testnet"`), classified here by the address's leading version character
(mainnet pay-to-public-key-hash / pay-to-script-hash addresses start with
`1` / `3`; testnet ones with `m` / `n` / `2`). -/

/-- Network variant an address string is formatted for, if any. -/
def addressVariantOf (addr : String) : Option String :=
  match addr.data with
  | [] => none
  | c :: _ =>
    if c = '1' || c = '3' then some "prod"
    else if c = 'm' || c = 'n' || c = '2' then some "testnet"
    else none

/-- Modelled from the spec: the `validateAddress` utility accepts an address
exactly when it is formatted for the requested network variant. -/
def validateAddressUtil (addr : String) (_asset netType : String) : Bool :=
  addressVariantOf addr == some netType

/-! ## Network configuration and adapter construction -/

/-- Native asset descriptor of a Bitcoin network configuration. -/
structure NativeAsset where
  name : String
  symbol : String
  decimals : Nat
deriving Repr, DecidableEq

/-- A `BitcoinNetworkConfig`: immutable per-network configuration. -/
structure BitcoinNetworkConfig where
  label : String
  selector : String
  nativeAsset : NativeAsset
  isTestnet : Bool
  p2shPfx : List Nat
  providers : List String
  explorerUrl : String
deriving Repr, DecidableEq

/-- A `BitcoinNetworkInput`: either a full network-config object, a string
selector, or some other (invalid) value. -/
inductive BitcoinNetworkInput where
  | config (c : BitcoinNetworkConfig)
  | selector (s : String)
  | invalid
deriving Repr, DecidableEq

/-- The `isBitcoinNetworkConfig` type guard. -/
def isBitcoinNetworkConfig : BitcoinNetworkInput → Bool
  | .config _ => true
  | _ => false

/-- The constructed adapter state: the resolved network configuration and
the `chain` field set from its selector. -/
structure BitcoinBaseChain where
  network : BitcoinNetworkConfig
  chain : String
deriving Repr, DecidableEq

/-- The `BitcoinBaseChain` constructor: resolve the input against the
adapter's `configMap` (config objects pass through; strings are looked up;
anything else resolves to nothing), failing with `Unknown network` for an
unknown string and `Invalid network config` otherwise. -/
def mkBitcoinBaseChain (configMap : List (String × BitcoinNetworkConfig))
    (input : BitcoinNetworkInput) : Except ChainError BitcoinBaseChain :=
  let networkConfig : Option BitcoinNetworkConfig :=
    match input with
    | .config c => some c
    | .selector s => List.lookup s configMap
    | .invalid => none
  match networkConfig with
  | some cfg => .ok { network := cfg, chain := cfg.selector }
  | none =>
    match input with
    | .selector s => .error (.unknownNetwork s)
    | _ => .error .invalidNetworkConfig

/-! ## Adapter methods -/

/-- `assetIsNative` (aliased as `assetIsSupported`): the asset equals the
network's native-asset symbol. -/
def assetIsNative (c : BitcoinBaseChain) (asset : String) : Bool :=
  asset == c.network.nativeAsset.symbol

/-- `assertAssetIsSupported`: throw `UnsupportedAsset` unless the asset is
the native one. -/
def assertAssetIsSupported (c : BitcoinBaseChain) (asset : String) :
    Except ChainError Unit :=
  if assetIsNative c asset then .ok () else .error (.unsupportedAsset asset c.chain)

/-- `validateAddress` as written in the source: delegate to the utility
with network type `this.network.isTestnet ? "prod" : "testnet"`. -/
def BitcoinBaseChain.validateAddress (c : BitcoinBaseChain) (addr : String) : Bool :=
  validateAddressUtil addr c.network.nativeAsset.symbol
    (if c.network.isTestnet then "prod" else "testnet")

/-- `getOutputPayload`: guard the asset, then return the release payload's
address with an empty payload buffer. -/
def getOutputPayload (c : BitcoinBaseChain) (asset toAddress : String) :
    Except ChainError (String × List Nat) :=
  match assertAssetIsSupported c asset with
  | .error e => .error e
  | .ok _ => .ok (toAddress, [])

/-- `getBalance`: guard the asset, reject invalid addresses, and otherwise
return `new BigNumber(0)` (the lookup is left unimplemented: `// TODO`). -/
def getBalance (c : BitcoinBaseChain) (asset addr : String) : Except ChainError ℚ :=
  match assertAssetIsSupported c asset with
  | .error e => .error e
  | .ok _ =>
    if c.validateAddress addr then .ok 0 else .error (.invalidAddress addr)

/-- `isDepositAsset`: guard the asset, then `true`. -/
def isDepositAsset (c : BitcoinBaseChain) (asset : String) : Except ChainError Bool :=
  match assertAssetIsSupported c asset with
  | .error e => .error e
  | .ok _ => .ok true

/-- `assetDecimals`: guard the asset, then the fixed precision 8. -/
def assetDecimals (c : BitcoinBaseChain) (asset : String) : Except ChainError Nat :=
  match assertAssetIsSupported c asset with
  | .error e => .error e
  | .ok _ => .ok 8

/-- `createGatewayAddress`: check the payload chain, guard the asset, and
base58-encode the address buffer built from `hash160(shardPublicKey)`,
`gHash` and the network's pay-to-script-hash version bytes. -/
def createGatewayAddress (c : BitcoinBaseChain) (asset fromChain : String)
    (shardPublicKey gHash : List Nat) : Except ChainError String :=
  if fromChain = c.chain then
    match assertAssetIsSupported c asset with
    | .error e => .error e
    | .ok _ =>
      .ok (base58Encode
        (createAddressBuffer (hash160 shardPublicKey) gHash c.network.p2shPfx))
  else .error (.invalidPayloadChain fromChain c.chain)

/-! ## Transactions and confirmation depth -/

/-- A `ChainTransaction` reference: URL-base64 transaction id and output
index (kept as the string the interface carries). -/
structure ChainTransaction where
  txid : String
  txindex : String
deriving Repr, DecidableEq

/-- `transactionHash`: decode the base64 txid, reverse the bytes, hex. -/
def transactionHash (tx : ChainTransaction) : String :=
  hexOfBytes ((fromBase64 tx.txid).reverse)

/-- The provider API surface `transactionConfidence` consults, given as the
responses the (external, asynchronous) providers would return:
`fetchUTXO` yields the `height` field of the looked-up output (0 when the
transaction is observed but not yet mined) and `fetchHeight` the current
chain height. -/
structure BitcoinAPI where
  fetchUTXO : String → String → Except ChainError Nat
  fetchHeight : Unit → Except ChainError Nat

/-- `transactionConfidence`: look up the output's height; a falsy height
yields 0; otherwise fetch the latest height and return
`latestHeight - height + 1`. A failing lookup propagates as an error. -/
def transactionConfidence (api : BitcoinAPI) (tx : ChainTransaction) :
    Except ChainError Int :=
  match api.fetchUTXO (transactionHash tx) tx.txindex with
  | .error e => .error e
  | .ok height =>
    if height = 0 then .ok 0
    else
      match api.fetchHeight () with
      | .error e => .error e
      | .ok latestHeight => .ok ((latestHeight : Int) - (height : Int) + 1)

/-! ## Deposit watching

`watchForDeposits` is driven by external provider responses; the embedding
passes those in as data: the successive results the provider would give to
the initial `fetchTXs` attempts, and, per polling iteration, the value of
the cancellation predicate sampled at the iteration's top together with the
results successive `fetchUTXOs` attempts would give in that iteration.
The returned pair collects every deposit handed to `onDeposit`, in order,
and a flag telling whether the loop returned (by cancellation) rather than
running out of scripted iterations. -/

/-- A raw transaction as returned by the provider API: hex txid, output
index and amount (strings, as the API carries them). -/
structure RawTx where
  txid : String
  txindex : String
  amount : String
deriving Repr, DecidableEq, BEq

/-- An `InputChainTransaction` handed to the `onDeposit` callback. -/
structure InputChainTransaction where
  txid : String
  txindex : String
  amount : String
deriving Repr, DecidableEq, BEq

/-- The deposit built from a raw provider transaction:
`toURLBase64(fromHex(tx.txid).reverse())` plus pass-through fields. -/
def toDeposit (tx : RawTx) : InputChainTransaction :=
  { txid := toURLBase64 ((fromHex tx.txid).reverse)
    txindex := tx.txindex
    amount := tx.amount }

/-- Modelled from the spec: `tryNTimes` from `@renproject/utils` (not among
the sampled sources) retries a fallible call a bounded number of times,
returning the first success among the first `n` scripted attempt outcomes
and otherwise the attempt's error. -/
def tryNTimes (n : Nat) (attempts : List (Except ChainError α)) :
    Except ChainError α :=
  match n, attempts with
  | 0, _ => .error (.providerFailure "retries exhausted")
  | _, [] => .error (.providerFailure "no response")
  | Nat.succ m, a :: rest =>
    match a with
    | .ok x => .ok x
    | .error e => if m = 0 then .error e else tryNTimes m rest

/-- One scripted iteration of the polling loop: the cancellation
predicate's value at the iteration's top, and the outcomes successive
`fetchUTXOs` attempts would produce during this iteration. -/
structure WatchIteration where
  cancelled : Bool
  fetchAttempts : List (Except ChainError (List RawTx))
deriving Repr

/-- The source performs a single `fetchUTXOs` call per iteration: only the
first scripted attempt outcome is consumed. -/
def iterationFetch (it : WatchIteration) : Except ChainError (List RawTx) :=
  match it.fetchAttempts with
  | [] => .error (.providerFailure "no response")
  | a :: _ => a

/-- Deposits dispatched during one iteration: every entry of a successful
poll; none when the poll fails (the error is logged and swallowed). -/
def iterationDeposits (it : WatchIteration) : List InputChainTransaction :=
  match iterationFetch it with
  | .ok txs => txs.map toDeposit
  | .error _ => []

/-- The `while (true)` polling loop: check cancellation at the top of each
iteration and return if cancelled; otherwise poll once, dispatch the
resulting deposits (errors logged, loop continues), and move on. The flag
is `true` when the loop returned (cancellation observed) and `false` when
the scripted iterations ran out with the loop still running. -/
def watchLoop : List WatchIteration → List InputChainTransaction × Bool
  | [] => ([], false)
  | it :: rest =>
    if it.cancelled then ([], true)
    else
      let out := watchLoop rest
      (iterationDeposits it ++ out.1, out.2)

/-- The pre-loop best-effort batch: `tryNTimes(() => fetchTXs(address), 2)`,
its deposits dispatched on success and any error swallowed. -/
def prefetchDeposits (attempts : List (Except ChainError (List RawTx))) :
    List InputChainTransaction :=
  match tryNTimes 2 attempts with
  | .ok txs => txs.map toDeposit
  | .error _ => []

/-- `watchForDeposits`: reject a payload for another chain, guard the
asset, dispatch the best-effort `fetchTXs` batch, then run the polling
loop. -/
def watchForDeposits (c : BitcoinBaseChain) (asset fromChain : String)
    (pre : List (Except ChainError (List RawTx))) (its : List WatchIteration) :
    Except ChainError (List InputChainTransaction × Bool) :=
  if fromChain = c.chain then
    match assertAssetIsSupported c asset with
    | .error e => .error e
    | .ok _ =>
      let out := watchLoop its
      .ok (prefetchDeposits pre ++ out.1, out.2)
  else .error (.invalidPayloadChain fromChain c.chain)

/-- Spec-following variant of the polling loop, written from the spec's
words for the refinement comparison of the retry policy: each iteration
performs the pending-UTXO query with a bounded retry of 2 attempts before
logging and continuing. -/
def watchLoopRetrySpec : List WatchIteration → List InputChainTransaction × Bool
  | [] => ([], false)
  | it :: rest =>
    if it.cancelled then ([], true)
    else
      let ds := match tryNTimes 2 it.fetchAttempts with
        | .ok txs => txs.map toDeposit
        | .error _ => []
      let out := watchLoopRetrySpec rest
      (ds ++ out.1, out.2)

/-! ## Unit conversion -/

/-- Rounding used by `BigNumber.decimalPlaces(0)` under the default
`ROUND_HALF_UP` mode: round half away from zero. -/
def roundHalfUp (q : ℚ) : ℤ :=
  if 0 ≤ q then ⌊q + 1 / 2⌋ else -⌊-q + 1 / 2⌋

/-- `toSats`: multiply by 10^8 and round to an integer. -/
def toSats (value : ℚ) : ℤ := roundHalfUp (value * 10 ^ 8)

/-- `fromSats`: divide by 10^8 (exact, arbitrary-precision decimal). -/
def fromSats (value : ℚ) : ℚ := value / 10 ^ 8

/-! ## Concrete fixtures -/

/-- The native asset shared by the sample network configurations. -/
def btcNativeAsset : NativeAsset := { name := "Bitcoin", symbol := "BTC", decimals := 8 }

/-- A mainnet Bitcoin network configuration. -/
def btcMainnetConfig : BitcoinNetworkConfig :=
  { label := "Bitcoin"
    selector := "Bitcoin"
    nativeAsset := btcNativeAsset
    isTestnet := false
    p2shPfx := [0x05]
    providers := ["blockchair"]
    explorerUrl := "https://live.blockcypher.com/btc" }

/-- A testnet Bitcoin network configuration. -/
def btcTestnetConfig : BitcoinNetworkConfig :=
  { label := "Bitcoin Testnet"
    selector := "Bitcoin"
    nativeAsset := btcNativeAsset
    isTestnet := true
    p2shPfx := [0xc4]
    providers := ["blockstream-testnet"]
    explorerUrl := "https://live.blockcypher.com/btc-testnet" }

/-- The adapter constructed over the mainnet configuration. -/
def mainnetChain : BitcoinBaseChain := { network := btcMainnetConfig, chain := "Bitcoin" }

/-- The adapter constructed over the testnet configuration. -/
def testnetChain : BitcoinBaseChain := { network := btcTestnetConfig, chain := "Bitcoin" }

/-- A second testnet adapter differing from `testnetChain` only in fields
irrelevant to address derivation (label, provider set, explorer). -/
def testnetChainAlt : BitcoinBaseChain :=
  { network :=
    { btcTestnetConfig with
      label := "Bitcoin Testnet (fallback)"
      providers := ["fallback-node", "second-node"]
      explorerUrl := "https://example.org/explorer" }
    chain := "Bitcoin" }

/-- A raw provider transaction reported repeatedly across poll iterations. -/
def dupTx : RawTx := { txid := "aabbcc", txindex := "0", amount := "1000" }

/-- The deposit built from `dupTx`. -/
def dupDeposit : InputChainTransaction := toDeposit dupTx

/-- A watch session whose provider reports the same `(txid, txindex)` in two
successive poll iterations before the listener is cancelled. -/
def dupIterations : List WatchIteration :=
  [ { cancelled := false, fetchAttempts := [.ok [dupTx]] }
  , { cancelled := false, fetchAttempts := [.ok [dupTx]] }
  , { cancelled := true, fetchAttempts := [] } ]

/-- A watch session whose first iteration hits a transient provider error,
followed by cancellation at the top of the second iteration. -/
def c7Iterations : List WatchIteration :=
  [ { cancelled := false, fetchAttempts := [.error (.providerFailure "p1 down")] }
  , { cancelled := true, fetchAttempts := [] } ]

/-- A raw provider transaction the first poll attempt would miss. -/
def c8Tx : RawTx := { txid := "0011ff", txindex := "1", amount := "5000" }

/-- The deposit built from `c8Tx`. -/
def c8Deposit : InputChainTransaction := toDeposit c8Tx

/-- A watch session where the iteration's first `fetchUTXOs` attempt fails
and a second attempt would have succeeded. -/
def c8Iterations : List WatchIteration :=
  [ { cancelled := false
      fetchAttempts := [.error (.providerFailure "timeout"), .ok [c8Tx]] }
  , { cancelled := true, fetchAttempts := [] } ]

/-- A provider API answering every output lookup with height 99 and the
current-height query with 105. -/
def api105 : BitcoinAPI :=
  { fetchUTXO := fun _ _ => .ok 99, fetchHeight := fun _ => .ok 105 }

/-- A sample transaction reference. -/
def tx0 : ChainTransaction :=
  { txid := "dcbhw9y1HWeTZNrPdKkzYbcrR203hue1E9YHikd8an8", txindex := "0" }

/-- A configuration map holding the mainnet configuration under its
selector. -/
def sampleConfigMap : List (String × BitcoinNetworkConfig) :=
  [("Bitcoin", btcMainnetConfig)]

/-! ## Helper lemmas -/

/-- The polling loop's output in closed form: deposits are every entry of
every successful poll of the iterations before the first cancellation, in
order, and the loop returns exactly when some iteration is cancelled. -/
theorem watchLoop_eq (its : List WatchIteration) :
    watchLoop its
      = (((its.takeWhile fun it => !it.cancelled).map iterationDeposits).flatten,
        its.any fun it => it.cancelled) := by
  induction its with
  | nil => rfl
  | cons it rest ih =>
    by_cases hc : it.cancelled
    · simp [watchLoop, hc, List.takeWhile_cons]
    · simp [watchLoop, hc, List.takeWhile_cons, ih]

/-- One polling iteration consumes only its first scripted attempt. -/
theorem iterationFetch_take1 (it : WatchIteration) :
    iterationFetch { cancelled := it.cancelled, fetchAttempts := it.fetchAttempts.take 1 }
      = iterationFetch it := by
  cases h : it.fetchAttempts <;> simp [iterationFetch, h]

/-- The polling loop's behaviour is unchanged if every iteration's scripted
attempts are truncated to the first one. -/
theorem watchLoop_take1 (its : List WatchIteration) :
    watchLoop (its.map fun it =>
        { cancelled := it.cancelled, fetchAttempts := it.fetchAttempts.take 1 })
      = watchLoop its := by
  induction its with
  | nil => rfl
  | cons it rest ih =>
    simp [watchLoop, ih, iterationDeposits, iterationFetch_take1]

/-- Rounding half away from zero is the identity on integers. -/
theorem roundHalfUp_intCast (n : ℤ) : roundHalfUp ((n : ℚ)) = n := by
  unfold roundHalfUp
  by_cases hn : 0 ≤ ((n : ℚ))
  · rw [if_pos hn, Int.floor_int_add]
    norm_num
  · rw [if_neg hn]
    have hcast : -((n : ℚ)) = (((-n : ℤ) : ℚ)) := by push_cast; ring
    rw [hcast, Int.floor_int_add]
    norm_num

/-! ## Claim theorems -/

/-- C1: gateway-address derivation is pure and deterministic — for a fixed
tuple (asset, fromPayload, shardPublicKey, gHash) and a fixed relevant
network configuration (selector, native asset, pay-to-script-hash version
bytes), any two invocations of `createGatewayAddress`, even through
adapters differing in every other configuration field or state (provider
set, explorer, labels), return byte-identical address strings. -/
theorem createGatewayAddress_deterministic (c c' : BitcoinBaseChain)
    (asset fromChain : String) (shardPublicKey gHash : List Nat)
    (hchain : c.chain = c'.chain)
    (hsym : c.network.nativeAsset.symbol = c'.network.nativeAsset.symbol)
    (hpfx : c.network.p2shPfx = c'.network.p2shPfx) :
    createGatewayAddress c asset fromChain shardPublicKey gHash
      = createGatewayAddress c' asset fromChain shardPublicKey gHash := by
  unfold createGatewayAddress assertAssetIsSupported assetIsNative
  rw [hchain, hsym, hpfx]

/-- Witness for C1: two adapters sharing selector, native asset and script
version bytes but differing in providers, label and explorer derive the
same gateway address for the same key and transfer hash. -/
theorem createGatewayAddress_deterministic_witness :
    createGatewayAddress testnetChain "BTC" "Bitcoin" [3, 1, 4] [2, 7, 18]
      = createGatewayAddress testnetChainAlt "BTC" "Bitcoin" [3, 1, 4] [2, 7, 18] :=
  createGatewayAddress_deterministic testnetChain testnetChainAlt
    "BTC" "Bitcoin" [3, 1, 4] [2, 7, 18] rfl rfl rfl

/-- C2 (counterexample): `watchForDeposits` does not deduplicate — when the
provider reports the same `(txid, txindex)` in two successive poll
iterations, the `onDeposit` handler receives the same deposit twice, not
exactly once. -/
theorem watchForDeposits_dedup_cex :
    watchForDeposits testnetChain "BTC" "Bitcoin" [] dupIterations
      = .ok ([dupDeposit, dupDeposit], true) ∧
    ([dupDeposit, dupDeposit].count dupDeposit) = 2 := by
  exact ⟨rfl, rfl⟩

/-- C2 (amended): within one watch session `watchForDeposits` performs no
deduplication — it invokes the handler once per entry of the best-effort
`fetchTXs` batch and once per entry of each successful poll result before
the first cancellation, in order, so a `(txid, txindex)` pair repeated
across iterations is reported once per occurrence. -/
theorem watchForDeposits_per_occurrence (c : BitcoinBaseChain)
    (asset fromChain : String) (pre : List (Except ChainError (List RawTx)))
    (its : List WatchIteration)
    (hchain : fromChain = c.chain) (hasset : assetIsNative c asset = true) :
    watchForDeposits c asset fromChain pre its
      = .ok (prefetchDeposits pre
          ++ ((its.takeWhile fun it => !it.cancelled).map iterationDeposits).flatten,
          its.any fun it => it.cancelled) := by
  subst hchain
  unfold watchForDeposits assertAssetIsSupported
  rw [watchLoop_eq]
  simp [hasset]

/-- Witness for C2's amended statement at the duplicated-deposit session. -/
theorem watchForDeposits_per_occurrence_witness :
    watchForDeposits testnetChain "BTC" "Bitcoin" [] dupIterations
      = .ok (prefetchDeposits []
          ++ ((dupIterations.takeWhile fun it => !it.cancelled).map iterationDeposits).flatten,
          dupIterations.any fun it => it.cancelled) :=
  watchForDeposits_per_occurrence testnetChain "BTC" "Bitcoin" [] dupIterations rfl rfl

/-- C3: `transactionConfidence` returns `currentHeight - includedHeight + 1`
for a mined transaction, 0 for an observed-but-unconfirmed transaction,
and fails (never returning 0) when the current-height lookup fails; for
height sequence [100, 100, 101, 103] and a transaction mined at height 99,
successive calls yield [2, 2, 3, 5]. -/
theorem transactionConfidence_spec (api : BitcoinAPI) (tx : ChainTransaction)
    (h latest : Nat) (e : ChainError) :
    (api.fetchUTXO (transactionHash tx) tx.txindex = .ok h → h ≠ 0 →
      api.fetchHeight () = .ok latest →
      transactionConfidence api tx = .ok ((latest : Int) - (h : Int) + 1)) ∧
    (api.fetchUTXO (transactionHash tx) tx.txindex = .ok 0 →
      transactionConfidence api tx = .ok 0) ∧
    (api.fetchUTXO (transactionHash tx) tx.txindex = .ok h → h ≠ 0 →
      api.fetchHeight () = .error e →
      transactionConfidence api tx = .error e) ∧
    ([100, 100, 101, 103].map (fun cur =>
        transactionConfidence
          { fetchUTXO := fun _ _ => .ok 99, fetchHeight := fun _ => .ok cur } tx)
      = [.ok 2, .ok 2, .ok 3, .ok 5]) := by
  refine ⟨?_, ?_, ?_, ?_⟩
  · intro h1 h2 h3
    simp [transactionConfidence, h1, h2, h3]
  · intro h1
    simp [transactionConfidence, h1]
  · intro h1 h2 h3
    simp [transactionConfidence, h1, h2, h3]
  · simp [transactionConfidence]

/-- Witness for C3: with the output mined at height 99 and current height
105, the confidence is 105 - 99 + 1 = 7. -/
theorem transactionConfidence_spec_witness :
    transactionConfidence api105 tx0 = .ok (((105 : Int)) - ((99 : Int)) + 1) :=
  (transactionConfidence_spec api105 tx0 99 105 ChainError.notFound).1 rfl (by decide) rfl

/-- C4 (evaluation at the failing input): the source's
`this.network.isTestnet ? "prod" : "testnet"` inverts the network variant,
so the testnet-configured adapter rejects the testnet-formatted address
used by the repository's own test suite and accepts a mainnet-formatted
one, and the mainnet-configured adapter does the reverse. -/
theorem validateAddress_variant_inverted :
    testnetChain.validateAddress "miMi2VET41YV1j6SDNTeZoPBbmH8B4nEx6" = false ∧
    testnetChain.validateAddress "1BvBMSEYstWetqTFn5Au4m4GFg7xJaNVN2" = true ∧
    mainnetChain.validateAddress "1BvBMSEYstWetqTFn5Au4m4GFg7xJaNVN2" = false ∧
    mainnetChain.validateAddress "miMi2VET41YV1j6SDNTeZoPBbmH8B4nEx6" = true := by
  exact ⟨rfl, rfl, rfl, rfl⟩

/-- C5: every asset-taking method is guarded by `assertAssetIsSupported` —
for an asset that is not the native-asset symbol the call fails with the
unsupported-asset error and produces no result (for the two methods that
first check the payload chain, under a matching payload). -/
theorem assetGuard_spec (c : BitcoinBaseChain)
    (asset toAddress addr fromChain : String)
    (pre : List (Except ChainError (List RawTx))) (its : List WatchIteration)
    (shardPublicKey gHash : List Nat)
    (h : assetIsNative c asset = false) :
    getOutputPayload c asset toAddress = .error (.unsupportedAsset asset c.chain) ∧
    getBalance c asset addr = .error (.unsupportedAsset asset c.chain) ∧
    isDepositAsset c asset = .error (.unsupportedAsset asset c.chain) ∧
    assetDecimals c asset = .error (.unsupportedAsset asset c.chain) ∧
    (fromChain = c.chain →
      watchForDeposits c asset fromChain pre its
        = .error (.unsupportedAsset asset c.chain)) ∧
    (fromChain = c.chain →
      createGatewayAddress c asset fromChain shardPublicKey gHash
        = .error (.unsupportedAsset asset c.chain)) := by
  refine ⟨?_, ?_, ?_, ?_, ?_, ?_⟩
  · simp [getOutputPayload, assertAssetIsSupported, h]
  · simp [getBalance, assertAssetIsSupported, h]
  · simp [isDepositAsset, assertAssetIsSupported, h]
  · simp [assetDecimals, assertAssetIsSupported, h]
  · intro hc
    simp [watchForDeposits, assertAssetIsSupported, h, hc]
  · intro hc
    simp [createGatewayAddress, assertAssetIsSupported, h, hc]

/-- Witness for C5: the asset "DOGE" is rejected with the unsupported-asset
error by each of the six methods of the testnet adapter. -/
theorem assetGuard_spec_witness :
    getOutputPayload testnetChain "DOGE" "addr1"
      = .error (.unsupportedAsset "DOGE" "Bitcoin") ∧
    getBalance testnetChain "DOGE" "addr1"
      = .error (.unsupportedAsset "DOGE" "Bitcoin") ∧
    isDepositAsset testnetChain "DOGE"
      = .error (.unsupportedAsset "DOGE" "Bitcoin") ∧
    assetDecimals testnetChain "DOGE"
      = .error (.unsupportedAsset "DOGE" "Bitcoin") ∧
    watchForDeposits testnetChain "DOGE" "Bitcoin" [] []
      = .error (.unsupportedAsset "DOGE" "Bitcoin") ∧
    createGatewayAddress testnetChain "DOGE" "Bitcoin" [3, 1, 4] [2, 7, 18]
      = .error (.unsupportedAsset "DOGE" "Bitcoin") := by
  have hg := assetGuard_spec testnetChain "DOGE" "addr1" "addr1" "Bitcoin"
    [] [] [3, 1, 4] [2, 7, 18] rfl
  exact ⟨hg.1, hg.2.1, hg.2.2.1, hg.2.2.2.1, hg.2.2.2.2.1 rfl, hg.2.2.2.2.2 rfl⟩

/-- C6: unit conversion round-trips at the fixed precision of 8 decimals —
for every value representable as an integer number of satoshis,
`fromSats (toSats x) = x`. -/
theorem sats_roundTrip (x : ℚ) (n : ℤ) (h : x = ((n : ℚ)) / 10 ^ 8) :
    fromSats (((toSats x : ℤ) : ℚ)) = x := by
  subst h
  unfold toSats fromSats
  rw [div_mul_cancel₀ ((n : ℚ)) (by norm_num : ((10 : ℚ) ^ 8) ≠ 0),
    roundHalfUp_intCast]

/-- Witness for C6 at the spec's example value 0.12345678. -/
theorem sats_roundTrip_witness :
    fromSats (((toSats ((12345678 : ℚ) / 10 ^ 8) : ℤ) : ℚ))
      = (12345678 : ℚ) / 10 ^ 8 :=
  sats_roundTrip ((12345678 : ℚ) / 10 ^ 8) 12345678 (by norm_num)

/-- C7: the polling loop terminates only by cancellation — under a matching
payload and supported asset, the watch returns exactly when the
cancellation predicate is true at the top of some iteration; a cancelled
first iteration dispatches nothing further; transient poll errors never
end the loop. -/
theorem watchForDeposits_cancellation (c : BitcoinBaseChain)
    (asset fromChain : String) (pre : List (Except ChainError (List RawTx)))
    (its : List WatchIteration) (ds : List InputChainTransaction) (ret : Bool)
    (hchain : fromChain = c.chain) (hasset : assetIsNative c asset = true)
    (hrun : watchForDeposits c asset fromChain pre its = .ok (ds, ret)) :
    (ret = true ↔ ∃ it ∈ its, it.cancelled = true) ∧
    (∀ it rest, its = it :: rest → it.cancelled = true →
      ds = prefetchDeposits pre ∧ ret = true) := by
  subst hchain
  unfold watchForDeposits assertAssetIsSupported at hrun
  rw [watchLoop_eq] at hrun
  simp [hasset] at hrun
  constructor
  · rw [← hrun.2]
    simp [List.any_eq_true]
  · intro it rest hits hc
    subst hits
    constructor
    · rw [← hrun.1]
      simp [List.takeWhile_cons, hc]
    · rw [← hrun.2]
      simp [hc]

/-- Witness for C7: a session whose only poll fails with a provider error
still runs until the cancellation at the top of the second iteration. -/
theorem watchForDeposits_cancellation_witness :
    (true = true ↔ ∃ it ∈ c7Iterations, it.cancelled = true) ∧
    (∀ it rest, c7Iterations = it :: rest → it.cancelled = true →
      ([] : List InputChainTransaction) = prefetchDeposits [] ∧ true = true) :=
  watchForDeposits_cancellation testnetChain "BTC" "Bitcoin" [] c7Iterations
    [] true rfl rfl rfl

/-- C8 (counterexample): the claimed 2-attempt retry of the per-iteration
`fetchUTXOs` query does not exist — in a session whose first iteration
fails on the first attempt and would succeed on a second one, the code
dispatches nothing, while the spec's retrying loop would dispatch the
deposit. -/
theorem watchForDeposits_retry_cex :
    watchForDeposits testnetChain "BTC" "Bitcoin" [] c8Iterations
      = .ok ([], true) ∧
    watchLoopRetrySpec c8Iterations = ([c8Deposit], true) := by
  exact ⟨rfl, rfl⟩

/-- C8 (amended): the bounded 2-attempt retry applies only to the one-time
initial `fetchTXs` batch before the loop; inside the polling loop
`fetchUTXOs` is attempted exactly once per iteration — the result never
depends on attempts beyond each iteration's first — and a failed attempt
is logged and the loop continues. -/
theorem watchForDeposits_single_attempt (c : BitcoinBaseChain)
    (asset fromChain : String) (pre : List (Except ChainError (List RawTx)))
    (its : List WatchIteration) (e : ChainError) (txs : List RawTx) :
    watchForDeposits c asset fromChain pre its
      = watchForDeposits c asset fromChain pre
          (its.map fun it =>
            { cancelled := it.cancelled, fetchAttempts := it.fetchAttempts.take 1 }) ∧
    tryNTimes 2 [Except.error e, Except.ok txs] = Except.ok txs ∧
    prefetchDeposits [Except.error e, Except.ok txs] = txs.map toDeposit := by
  refine ⟨?_, rfl, rfl⟩
  unfold watchForDeposits
  rw [watchLoop_take1]

/-- C9: adapter construction resolves config objects as-is, resolves string
selectors through the configuration map, fails with the unknown-network
error on an unknown string selector and with the invalid-network-config
error on any other unrecognized input, and on success sets the adapter's
`network` field to the resolved configuration. -/
theorem mkBitcoinBaseChain_spec (configMap : List (String × BitcoinNetworkConfig))
    (input : BitcoinNetworkInput) :
    (∀ cfg, input = .config cfg →
      mkBitcoinBaseChain configMap input
        = .ok { network := cfg, chain := cfg.selector }) ∧
    (∀ s cfg, input = .selector s → List.lookup s configMap = some cfg →
      mkBitcoinBaseChain configMap input
        = .ok { network := cfg, chain := cfg.selector }) ∧
    (∀ s, input = .selector s → List.lookup s configMap = none →
      mkBitcoinBaseChain configMap input = .error (.unknownNetwork s)) ∧
    (input = .invalid →
      mkBitcoinBaseChain configMap input = .error .invalidNetworkConfig) := by
  refine ⟨?_, ?_, ?_, ?_⟩
  · intro cfg hi
    subst hi
    rfl
  · intro s cfg hi hl
    subst hi
    simp [mkBitcoinBaseChain, hl]
  · intro s hi hl
    subst hi
    simp [mkBitcoinBaseChain, hl]
  · intro hi
    subst hi
    rfl

/-- Witness for C9: with the mainnet configuration registered under
"Bitcoin", that selector resolves, "Dogecoin" raises the unknown-network
error and an invalid input raises the invalid-network-config error. -/
theorem mkBitcoinBaseChain_spec_witness :
    mkBitcoinBaseChain sampleConfigMap (.selector "Bitcoin")
      = .ok { network := btcMainnetConfig, chain := btcMainnetConfig.selector } ∧
    mkBitcoinBaseChain sampleConfigMap (.selector "Dogecoin")
      = .error (.unknownNetwork "Dogecoin") ∧
    mkBitcoinBaseChain sampleConfigMap .invalid
      = .error .invalidNetworkConfig :=
  ⟨(mkBitcoinBaseChain_spec sampleConfigMap (.selector "Bitcoin")).2.1
      "Bitcoin" btcMainnetConfig rfl rfl,
    (mkBitcoinBaseChain_spec sampleConfigMap (.selector "Dogecoin")).2.2.1
      "Dogecoin" rfl rfl,
    (mkBitcoinBaseChain_spec sampleConfigMap .invalid).2.2.2 rfl⟩

/-- C10: for every supported asset and every address the adapter's
`validateAddress` accepts, `getBalance` returns exactly 0 — the balance
lookup is unimplemented and never performed. -/
theorem getBalance_zero (c : BitcoinBaseChain) (asset addr : String)
    (hasset : assetIsNative c asset = true)
    (haddr : c.validateAddress addr = true) :
    getBalance c asset addr = .ok 0 := by
  simp [getBalance, assertAssetIsSupported, hasset, haddr]

/-- Witness for C10: an address the testnet adapter accepts (a
mainnet-formatted one, by the inverted variant selection the code ships
with) yields balance 0 for the native asset. -/
theorem getBalance_zero_witness :
    getBalance testnetChain "BTC" "1BvBMSEYstWetqTFn5Au4m4GFg7xJaNVN2" = .ok 0 :=
  getBalance_zero testnetChain "BTC" "1BvBMSEYstWetqTFn5Au4m4GFg7xJaNVN2" rfl rfl
